import Mathlib

/-!
Shallow embedding of `src/sys_stat.py` (SysStats).

The program shells out to external commands; we model the external world as an
environment `Env : String → ProcResult` mapping a command string to the exit
code, stdout and stderr of the spawned process.  Python `int`/`float` values
are modelled as `Int`/`ℚ`; a Python exception escaping a function is modelled
by the `Except` error channel, with `PyError.commandRun` standing for the
program's `CommandRunException` and `PyError.valueError` for the `ValueError`
raised by tuple unpacking or by `int()`/`float()` conversion failures.
-/

deriving instance DecidableEq for Except

/-- Exit code, captured stdout and captured stderr of one external process. -/
structure ProcResult where
  returncode : Int
  stdout : String
  stderr : String
deriving DecidableEq

/-- The external world: what each command string would produce if spawned. -/
def Env : Type := String → ProcResult

/-- Python exceptions relevant to `sys_stat.py`: `CommandRunException`
(carrying its formatted message) and `ValueError` (from unpacking or numeric
conversion).  Only `CommandRunException` is ever caught by the program. -/
inductive PyError where
  | commandRun (msg : String)
  | valueError (msg : String)
deriving DecidableEq, Repr

/-- Characters stripped by Python `str.strip()` / split on by `str.split()`. -/
def isPySpace (c : Char) : Bool :=
  c = ' ' || c = '\t' || c = '\n' || c = '\r' || c = '\x0b' || c = '\x0c'

/-- Python `s.strip()`: drop whitespace from both ends. -/
def pyStrip (s : String) : String :=
  ⟨((s.data.dropWhile isPySpace).reverse.dropWhile isPySpace).reverse⟩

/-- Worker for `splitOnNl`: `acc` holds the current segment reversed. -/
def splitNlGo : List Char → List Char → List String
  | [], acc => [⟨acc.reverse⟩]
  | c :: cs, acc =>
    if c = '\n' then ⟨acc.reverse⟩ :: splitNlGo cs [] else splitNlGo cs (c :: acc)

/-- Python `s.split("\n")`: split at every newline, keeping empty segments;
the empty string yields `[""]`. -/
def splitOnNl (s : String) : List String := splitNlGo s.data []

/-- Worker for `pySplitWs`: `acc` holds the current token reversed. -/
def splitWsGo : List Char → List Char → List String
  | [], acc => if acc.isEmpty then [] else [⟨acc.reverse⟩]
  | c :: cs, acc =>
    if isPySpace c then
      if acc.isEmpty then splitWsGo cs [] else ⟨acc.reverse⟩ :: splitWsGo cs []
    else splitWsGo cs (c :: acc)

/-- Python `s.split()` (no argument): split on whitespace runs, no empty
tokens; the empty string yields the empty list. -/
def pySplitWs (s : String) : List String := splitWsGo s.data []

/-- Value of a digit string, assuming all characters are digits. -/
def natOfDigits (l : List Char) : Nat :=
  l.foldl (fun n c => 10 * n + (c.toNat - 48)) 0

/-- Parse a nonempty all-digit character list, else fail. -/
def parseNatDigits (l : List Char) : Option Nat :=
  if l.isEmpty then none
  else if l.all Char.isDigit then some (natOfDigits l) else none

/-- Parse an optional sign followed by a nonempty digit string. -/
def parseSignedDigits : List Char → Option Int
  | '-' :: rest => (parseNatDigits rest).map (fun n => -(n : Int))
  | '+' :: rest => (parseNatDigits rest).map (fun n => (n : Int))
  | l => (parseNatDigits l).map (fun n => (n : Int))

/-- Python `int(token)` on a whitespace-free token: an optionally signed
decimal integer, `none` when the conversion raises `ValueError`. -/
def pyInt (s : String) : Option Int := parseSignedDigits s.data

/-- Mantissa of a Python float literal: `digits`, `digits.digits`,
`.digits` or `digits.` — at least one digit overall.  Returned as an exact
numerator/denominator pair (the denominator the power of ten of the
fractional part), kept in integer form so that evaluation stays
kernel-computable. -/
def parseMantissa (l : List Char) : Option (Int × Nat) :=
  match l.splitOn '.' with
  | [ip] =>
    if ip.isEmpty then none
    else if ip.all Char.isDigit then some ((natOfDigits ip : Int), 1) else none
  | [ip, fp] =>
    if ip.isEmpty && fp.isEmpty then none
    else if ip.all Char.isDigit && fp.all Char.isDigit then
      some (((natOfDigits ip * 10 ^ fp.length + natOfDigits fp : Nat) : Int),
        10 ^ fp.length)
    else none
  | _ => none

/-- Python `float(token)` on a whitespace-free token: optional sign, decimal
mantissa, optional `e`/`E` exponent; `none` when conversion raises
`ValueError`.  The value is the exact rational value of the decimal literal
(`inf`/`nan` forms are not modelled; the program never receives them from
`ps`). -/
def pyFloat (s : String) : Option ℚ :=
  let signed : Int × List Char :=
    match s.data with
    | '-' :: rest => (-1, rest)
    | '+' :: rest => (1, rest)
    | l => (1, l)
  let mantExp := signed.2.span (fun c => !(c == 'e' || c == 'E'))
  match mantExp.2 with
  | [] => (parseMantissa mantExp.1).map (fun md => mkRat (signed.1 * md.1) md.2)
  | _ :: expPart =>
    match parseMantissa mantExp.1, parseSignedDigits expPart with
    | some md, some e =>
      if 0 ≤ e then some (mkRat (signed.1 * md.1 * (10 : Int) ^ e.toNat) md.2)
      else some (mkRat (signed.1 * md.1) (md.2 * 10 ^ (-e).toNat))
    | _, _ => none

/-- `UserStat` record of `sys_stat.py` (the five instance attributes, in
`__init__` assignment order).  `upn = none` models Python `None`. -/
structure UserStat where
  username : String
  upn : Option String
  rss_total : Int
  pmem_total : ℚ
  pcpu_total : ℚ
deriving DecidableEq, Repr

/-- Addition of rationals in explicit cross-multiplied form; equal to `ℚ`
addition (`ratAdd_eq_add`) but kernel-computable, unlike `Rat.add`. -/
def ratAdd (a b : ℚ) : ℚ :=
  mkRat (a.num * (b.den : Int) + b.num * (a.den : Int)) (a.den * b.den)

/-- Round `100 * n / d` (with `d > 0`) to the nearest integer, ties to the
even integer — the rounding of Python's fixed-point float formatting. -/
def roundHalfEven100 (n d : Int) : Int :=
  let m := 100 * n
  let f := Int.fdiv m d
  let r2 := 2 * (m - f * d)
  if r2 < d then f
  else if d < r2 then f + 1
  else if f % 2 = 0 then f else f + 1

/-- Python `f"{x:.2f}"` on the modelled value: sign, integer part, a dot and
exactly two decimal digits. -/
def formatFixed2 (q : ℚ) : String :=
  let neg := q.num < 0
  let n := if neg then -q.num else q.num
  let c := (roundHalfEven100 n (q.den : Int)).toNat
  let ip := c / 100
  let fp := c % 100
  (if neg then "-" else "") ++ toString ip ++ "." ++
    ⟨[Char.ofNat (48 + fp / 10), Char.ofNat (48 + fp % 10)]⟩

/-- `UserStat.to_table_row`: tab-separated row; a `None` (or empty, hence
falsy) UPN prints as the literal `none`; the two percentage totals are
formatted with two decimal digits. -/
def UserStat.to_table_row (s : UserStat) : String :=
  let upn := match s.upn with
    | some u => if u = "" then "none" else u
    | none => "none"
  s.username ++ "\t" ++ upn ++ "\t" ++ toString s.rss_total ++ "\t" ++
    formatFixed2 s.pmem_total ++ "\t" ++ formatFixed2 s.pcpu_total

/-- JSON values, the image of Python `json.dumps`: `int` and `float` are kept
apart because `json` serializes them differently (floats at full `repr`
precision, here the exact modelled rational). -/
inductive Json where
  | null
  | str (s : String)
  | int (n : Int)
  | num (q : ℚ)
  | arr (l : List Json)
  | obj (l : List (String × Json))

/-- `stat.__dict__` as serialized by `json.dumps`: the five attributes by
name in insertion order; Python `None` becomes JSON `null`. -/
def statDict (s : UserStat) : Json :=
  .obj [("username", .str s.username),
        ("upn", match s.upn with | some u => .str u | none => .null),
        ("rss_total", .int s.rss_total),
        ("pmem_total", .num s.pmem_total),
        ("pcpu_total", .num s.pcpu_total)]

/-- What one run prints: a list of lines in table mode, a single JSON
aggregate in json mode. -/
inductive Output where
  | table (lines : List String)
  | json (j : Json)

/-- `run_command`: spawn `command`, capture both streams; raise
`CommandRunException` with the formatted message when the exit status is
non-zero, else return decoded stdout. -/
def run_command (env : Env) (command : String) : Except String String :=
  let p := env command
  if p.returncode ≠ 0 then
    .error ("Error running command " ++ command ++ ": " ++ p.stderr)
  else .ok p.stdout

/-- One line of `ps` output: split into whitespace tokens, unpack exactly
three, convert as `int`, `float`, `float`; any failure is a `ValueError`
(never a `CommandRunException`). -/
def parseLine (line : String) : Except PyError (Int × ℚ × ℚ) :=
  match pySplitWs line with
  | [a, b, c] =>
    match pyInt a with
    | none => .error (.valueError ("invalid literal for int: " ++ a))
    | some r =>
      match pyFloat b with
      | none => .error (.valueError ("could not convert string to float: " ++ b))
      | some m =>
        match pyFloat c with
        | none => .error (.valueError ("could not convert string to float: " ++ c))
        | some p => .ok (r, m, p)
  | toks => .error (.valueError ("cannot unpack " ++ toString toks.length ++ " values into 3"))

/-- The accumulation loop of `get_user_stats`: fold the parsed triples of
each line, in line order, onto the three running totals (`ratAdd` is `ℚ`
addition, see `ratAdd_eq_add`). -/
def statsLoop : List String → Int × ℚ × ℚ → Except PyError (Int × ℚ × ℚ)
  | [], acc => .ok acc
  | line :: rest, acc =>
    match parseLine line with
    | .error e => .error e
    | .ok (r, m, p) => statsLoop rest (acc.1 + r, ratAdd acc.2.1 m, ratAdd acc.2.2 p)

/-- `upn.strip() if upn else None`: Python truthiness makes both `None` and
the empty string fall to `None`; otherwise the identity is stripped. -/
def pyTruthyStrip : Option String → Option String
  | none => none
  | some s => if s = "" then none else some (pyStrip s)

/-- The `try`/`except CommandRunException` block around the identity lookup
of `get_user_stats`: the command's stdout on success, `None` on failure. -/
def identityOpt (env : Env) (username : String) : Option String :=
  match run_command env ("adquery user -P " ++ username) with
  | .ok s => some s
  | .error _ => none

/-- `get_user_stats(username)`: identity lookup with `CommandRunException`
swallowed to `None`; process-table lookup with `CommandRunException`
swallowed to `None` (no record); the parse/sum loop over
`stdout.strip().split("\n")`, whose `ValueError`s are NOT caught and escape
on the `Except` error channel. -/
def get_user_stats (env : Env) (username : String) :
    Except PyError (Option UserStat) :=
  let upn : Option String := identityOpt env username
  match run_command env ("ps -hax -o rss,pmem,pcpu -u " ++ username) with
  | .error _ => .ok none
  | .ok process_stats =>
    match statsLoop (splitOnNl (pyStrip process_stats)) (0, 0, 0) with
    | .error e => .error e
    | .ok t =>
      .ok (some { username := username, upn := pyTruthyStrip upn,
                  rss_total := t.1, pmem_total := t.2.1, pcpu_total := t.2.2 })

/-- `asyncio.gather` over `get_user_stats`: one result slot per username in
input order; an exception escaping any task aborts the whole gather. -/
def gatherStats (env : Env) : List String → Except PyError (List (Option UserStat))
  | [] => .ok []
  | u :: us =>
    match get_user_stats env u with
    | .error e => .error e
    | .ok r =>
      match gatherStats env us with
      | .error e => .error e
      | .ok rs => .ok (r :: rs)

/-- The fan-out plus the `[stat for stat in user_stats if stat]` filter of
`main`: only non-`None` results survive, in input order. -/
def collect_all (env : Env) (usernames : List String) :
    Except PyError (List UserStat) :=
  match gatherStats env usernames with
  | .error e => .error e
  | .ok l => .ok (l.filterMap id)

/-- `print_stats`: table mode prints the header line then one row per stat;
json mode prints one aggregate array; any other format prints nothing. -/
def print_stats (stats : List UserStat) (output_format : String) : Option Output :=
  if output_format = "table" then
    some (.table ("Username\tUPN\tRSS Total\tPMEM Total\tPCPU Total" ::
      stats.map UserStat.to_table_row))
  else if output_format = "json" then
    some (.json (.arr (stats.map statDict)))
  else none

/-- `main` after argument parsing: enumerate the group (a
`CommandRunException` here escapes, modelling the run dying with a non-zero
exit and a diagnostic), strip-split the member list, gather the per-user
collections, print the survivors. -/
def mainRun (env : Env) (output_format : String) :
    Except PyError (Option Output) :=
  match run_command env "adquery group -m" with
  | .error msg => .error (.commandRun msg)
  | .ok usernames =>
    match collect_all env ((splitOnNl (pyStrip usernames)).map pyStrip) with
    | .error e => .error e
    | .ok stats => .ok (print_stats stats output_format)

/-- Environment result of a command succeeding with the given stdout. -/
def okRes (out : String) : ProcResult := ⟨0, out, ""⟩

/-- Environment result of a command failing with the given stderr. -/
def failRes (err : String) : ProcResult := ⟨1, "", err⟩

/-- Whether an `Except` computation ended in the error channel, i.e. the
modelled Python call raised. -/
def Except.isErr : Except ε α → Bool
  | .error _ => true
  | .ok _ => false

/-- Whether a string ends in a dot followed by exactly two decimal digits. -/
def endsIn2Decimals (s : String) : Bool :=
  match s.data.reverse with
  | d2 :: d1 :: p :: _ => d1.isDigit && d2.isDigit && (p == '.')
  | _ => false

/-- World for C1: user `alice` has a malformed process line (`abc` fails
float conversion), sibling `bob` has well-formed output and identity. -/
def envC1 : Env := fun cmd =>
  if cmd = "adquery group -m" then okRes "alice\nbob\n"
  else if cmd = "adquery user -P alice" then okRes "alice@EXAMPLE\n"
  else if cmd = "ps -hax -o rss,pmem,pcpu -u alice" then okRes "100 abc 2.0\n"
  else if cmd = "adquery user -P bob" then okRes "bob@EXAMPLE\n"
  else if cmd = "ps -hax -o rss,pmem,pcpu -u bob" then okRes "50 0.5 1.5\n"
  else failRes "unknown command"

/-- World for C2: `alice`'s process lookup exits non-zero, `bob`'s run is
healthy. -/
def envC2 : Env := fun cmd =>
  if cmd = "adquery group -m" then okRes "alice\nbob\n"
  else if cmd = "adquery user -P alice" then okRes "alice@EXAMPLE\n"
  else if cmd = "ps -hax -o rss,pmem,pcpu -u alice" then failRes "no processes"
  else if cmd = "adquery user -P bob" then okRes "bob@EXAMPLE\n"
  else if cmd = "ps -hax -o rss,pmem,pcpu -u bob" then okRes "50 0.5 1.5\n"
  else failRes "unknown command"

/-- World for C3: the spec's worked example for `alice`. -/
def envC3 : Env := fun cmd =>
  if cmd = "adquery user -P alice" then okRes "alice@EXAMPLE"
  else if cmd = "ps -hax -o rss,pmem,pcpu -u alice" then
    okRes "100 1.5 2.0\n200 0.5 1.0"
  else failRes "unknown command"

/-- World for C4: group enumeration itself fails. -/
def envC4 : Env := fun cmd =>
  if cmd = "adquery group -m" then failRes "cannot enumerate group"
  else okRes "should never be consulted"

/-- Second world for C4, agreeing with `envC4` only on the group command:
per-user lookups would answer differently, but are never reached. -/
def envC4b : Env := fun cmd =>
  if cmd = "adquery group -m" then failRes "cannot enumerate group"
  else failRes "a different world"

/-- World for C5: `carol`'s identity lookup fails, her process lookup
succeeds with well-formed output. -/
def envC5 : Env := fun cmd =>
  if cmd = "adquery user -P carol" then failRes "no such user"
  else if cmd = "ps -hax -o rss,pmem,pcpu -u carol" then okRes "10 0.5 0.25\n"
  else failRes "unknown command"

/-- World for C6: three users, the middle one dropped by a failing process
lookup. -/
def envC6 : Env := fun cmd =>
  if cmd = "adquery user -P alice" then okRes "alice@EXAMPLE"
  else if cmd = "ps -hax -o rss,pmem,pcpu -u alice" then okRes "100 1.5 2.0"
  else if cmd = "adquery user -P bob" then okRes "bob@EXAMPLE"
  else if cmd = "ps -hax -o rss,pmem,pcpu -u bob" then failRes "no processes"
  else if cmd = "adquery user -P carol" then okRes "carol@EXAMPLE"
  else if cmd = "ps -hax -o rss,pmem,pcpu -u carol" then okRes "30 0.25 0.75"
  else failRes "unknown command"

/-- World for C9: one succeeding and one failing command. -/
def envC9 : Env := fun cmd =>
  if cmd = "echo hi" then okRes "hi\n"
  else ⟨2, "", "went wrong"⟩

/-- World for C10: the group has one member `dave` whose process lookup
succeeds with empty stdout (a user with no processes). -/
def envC10 : Env := fun cmd =>
  if cmd = "adquery group -m" then okRes "dave\n"
  else if cmd = "adquery user -P dave" then okRes "dave@EXAMPLE"
  else if cmd = "ps -hax -o rss,pmem,pcpu -u dave" then okRes ""
  else failRes "unknown command"

/-- Expected per-user outcome in the C6 world: `bob` is dropped, the others
carry their parsed totals. -/
def rC6 : String → Option UserStat := fun u =>
  if u = "alice" then some ⟨"alice", some "alice@EXAMPLE", 100, mkRat 3 2, 2⟩
  else if u = "carol" then some ⟨"carol", some "carol@EXAMPLE", 30, mkRat 1 4, mkRat 3 4⟩
  else none

/-- A concrete record used to witness the rendering claims. -/
def demoStat : UserStat := ⟨"alice", none, 300, 2, 3⟩

/-- `ratAdd` computes `ℚ` addition. -/
theorem ratAdd_eq_add (a b : ℚ) : ratAdd a b = a + b := (Rat.add_def' a b).symm

example : pySplitWs "100 1.5 2.0" = ["100", "1.5", "2.0"] := by decide
example : pyFloat "1.5" = some (mkRat 3 2) := by decide
example : formatFixed2 2 = "2.00" := by decide
example : formatFixed2 (mkRat 3 2) = "1.50" := by decide
example : pyInt "100" = some 100 := by decide
example : pyFloat "abc" = none := by decide

/-- A process exiting zero makes `run_command` return its captured stdout. -/
theorem run_command_ok {env : Env} {cmd : String}
    (h : (env cmd).returncode = 0) :
    run_command env cmd = .ok (env cmd).stdout := by
  unfold run_command
  simp [h]

/-- A process exiting non-zero makes `run_command` raise, the message
carrying the command string and the decoded stderr. -/
theorem run_command_err {env : Env} {cmd : String}
    (h : (env cmd).returncode ≠ 0) :
    run_command env cmd =
      .error ("Error running command " ++ cmd ++ ": " ++ (env cmd).stderr) := by
  unfold run_command
  simp [h]

/-- The identity lookup on success: the raw stdout, wrapped in `some`. -/
theorem identityOpt_ok {env : Env} {u : String}
    (h : (env ("adquery user -P " ++ u)).returncode = 0) :
    identityOpt env u = some (env ("adquery user -P " ++ u)).stdout := by
  unfold identityOpt
  rw [run_command_ok h]

/-- The identity lookup on failure: swallowed into `none`. -/
theorem identityOpt_err {env : Env} {u : String}
    (h : (env ("adquery user -P " ++ u)).returncode ≠ 0) :
    identityOpt env u = none := by
  unfold identityOpt
  rw [run_command_err h]

/-- When every line parses, `statsLoop` adds the parsed values, in line
order, onto the accumulator components. -/
theorem statsLoop_ok {lines : List String} {vals : List (Int × ℚ × ℚ)}
    (h : List.Forall₂ (fun line v => parseLine line = Except.ok v) lines vals) :
    ∀ (a : Int) (b c : ℚ), statsLoop lines (a, b, c) =
      Except.ok (a + (vals.map (fun v => v.1)).sum,
        (vals.map (fun v => v.2.1)).foldl (· + ·) b,
        (vals.map (fun v => v.2.2)).foldl (· + ·) c) := by
  induction h with
  | nil => intro a b c; simp [statsLoop]
  | @cons line v lines' vals' h1 _h2 ih =>
    intro a b c
    obtain ⟨r, m, p⟩ := v
    simp only [statsLoop, h1]
    rw [ih]
    simp [ratAdd_eq_add, add_assoc]

/-- A line that fails to parse makes `statsLoop` raise, whatever the lines
around it contribute. -/
theorem statsLoop_err {lines : List String} {line : String}
    (hmem : line ∈ lines) (hbad : (parseLine line).isErr = true) :
    ∀ acc, (statsLoop lines acc).isErr = true := by
  induction lines with
  | nil => cases hmem
  | cons l ls ih =>
    intro acc
    rcases List.mem_cons.mp hmem with h | h
    · subst h
      cases hp : parseLine line with
      | error e => simp [statsLoop, hp, Except.isErr]
      | ok v => rw [hp] at hbad; simp [Except.isErr] at hbad
    · cases hp : parseLine l with
      | error e => simp [statsLoop, hp, Except.isErr]
      | ok v =>
        obtain ⟨r, m, p⟩ := v
        simp only [statsLoop, hp]
        exact ih h _

/-- One step of the gather-and-filter pipeline of `main`. -/
theorem collect_all_cons (env : Env) (u : String) (us : List String) :
    collect_all env (u :: us) =
      match get_user_stats env u with
      | .error e => .error e
      | .ok r =>
        match collect_all env us with
        | .error e => .error e
        | .ok stats => .ok (r.toList ++ stats) := by
  cases hu : get_user_stats env u with
  | error e => simp only [collect_all, gatherStats, hu]
  | ok r =>
    cases hg : gatherStats env us with
    | error e => simp only [collect_all, gatherStats, hu, hg]
    | ok l =>
      simp only [collect_all, gatherStats, hu, hg]
      cases r <;> simp [List.filterMap_cons]

/-- A user whose collection yields no record leaves the rest of the fan-out
untouched: gathering with that user inserted anywhere equals gathering
without them. -/
theorem collect_all_middle_none {env : Env} {u : String}
    (h : get_user_stats env u = Except.ok none) (us₁ us₂ : List String) :
    collect_all env (us₁ ++ u :: us₂) = collect_all env (us₁ ++ us₂) := by
  induction us₁ with
  | nil =>
    simp only [List.nil_append]
    rw [collect_all_cons, h]
    cases hc : collect_all env us₂ <;> simp
  | cons a us₁ ih =>
    simp only [List.cons_append]
    rw [collect_all_cons, collect_all_cons, ih]

/-- A user whose collection raises aborts the whole gather, wherever they
stand in the input. -/
theorem collect_all_err_mem {env : Env} {u : String}
    (h : (get_user_stats env u).isErr = true) (us₁ us₂ : List String) :
    (collect_all env (us₁ ++ u :: us₂)).isErr = true := by
  induction us₁ with
  | nil =>
    rw [List.nil_append, collect_all_cons]
    cases hg : get_user_stats env u with
    | error e => simp [Except.isErr]
    | ok r => rw [hg] at h; simp [Except.isErr] at h
  | cons a us₁ ih =>
    rw [List.cons_append, collect_all_cons]
    cases get_user_stats env a with
    | error e => simp [Except.isErr]
    | ok r =>
      cases hc : collect_all env (us₁ ++ u :: us₂) with
      | error e => simp [Except.isErr]
      | ok stats => rw [hc] at ih; simp [Except.isErr] at ih

/-- A failing group enumeration surfaces as the fatal exception of the run. -/
theorem mainRun_group_err {env : Env} {fmt : String}
    (h : (env "adquery group -m").returncode ≠ 0) :
    mainRun env fmt = .error (.commandRun
      ("Error running command " ++ "adquery group -m" ++ ": " ++
        (env "adquery group -m").stderr)) := by
  unfold mainRun
  rw [run_command_err h]

/-- The ASCII characters `48 + d` for `d < 10` are the decimal digits. -/
theorem char_ofNat_isDigit : ∀ d < 10, (Char.ofNat (48 + d)).isDigit = true := by
  decide

/-- A string ending in a dot and two digit characters satisfies
`endsIn2Decimals`. -/
theorem endsIn2Decimals_append (s : String) (d1 d2 : Char)
    (h1 : d1.isDigit = true) (h2 : d2.isDigit = true) :
    endsIn2Decimals (s ++ "." ++ String.mk [d1, d2]) = true := by
  have hd : ∀ (a b : String), (a ++ b).data = a.data ++ b.data := fun a b => rfl
  have hdot : ("." : String).data = ['.'] := rfl
  have hrev : (s ++ "." ++ String.mk [d1, d2]).data.reverse
      = d2 :: d1 :: '.' :: s.data.reverse := by
    simp [hd, hdot]
  unfold endsIn2Decimals
  rw [hrev]
  simp [h1, h2]

/-- Every string `formatFixed2` produces ends in a dot followed by exactly
two decimal digits. -/
theorem formatFixed2_twoDecimals (q : ℚ) :
    endsIn2Decimals (formatFixed2 q) = true := by
  unfold formatFixed2
  exact endsIn2Decimals_append _ _ _
    (char_ofNat_isDigit _ (by omega)) (char_ofNat_isDigit _ (by omega))

/-- A successful process lookup whose stripped, newline-split stdout parses
line by line yields the record with the three totals accumulated in line
order; the identity sub-lookup only fills the `upn` field. -/
theorem get_user_stats_parse_ok {env : Env} {u : String}
    {vals : List (Int × ℚ × ℚ)}
    (hps : (env ("ps -hax -o rss,pmem,pcpu -u " ++ u)).returncode = 0)
    (hlines : List.Forall₂ (fun line v => parseLine line = Except.ok v)
      (splitOnNl (pyStrip (env ("ps -hax -o rss,pmem,pcpu -u " ++ u)).stdout))
      vals) :
    get_user_stats env u = .ok (some
      { username := u, upn := pyTruthyStrip (identityOpt env u),
        rss_total := (vals.map (fun v => v.1)).sum,
        pmem_total := (vals.map (fun v => v.2.1)).foldl (· + ·) 0,
        pcpu_total := (vals.map (fun v => v.2.2)).foldl (· + ·) 0 }) := by
  simp only [get_user_stats, run_command_ok hps]
  rw [statsLoop_ok hlines 0 0 0]
  simp

/-- C9: `run_command` returns the decoded captured stdout exactly when the
external process exits zero, and raises a command-execution error exactly
when it exits non-zero, the error carrying both the command string and the
decoded captured stderr. -/
theorem C9_run_command_contract (env : Env) (command : String) :
    ((env command).returncode = 0 →
      run_command env command = .ok (env command).stdout) ∧
    ((env command).returncode ≠ 0 →
      run_command env command = .error
        ("Error running command " ++ command ++ ": " ++ (env command).stderr)) :=
  ⟨fun h => run_command_ok h, fun h => run_command_err h⟩

/-- Witness for C9 in a concrete world: one succeeding command returns its
stdout, one failing command raises with command and stderr in the message. -/
theorem C9_witness :
    run_command envC9 "echo hi" = .ok "hi\n" ∧
    run_command envC9 "false" =
      .error ("Error running command " ++ "false" ++ ": " ++ "went wrong") :=
  ⟨(C9_run_command_contract envC9 "echo hi").1 (by decide),
   (C9_run_command_contract envC9 "false").2 (by decide)⟩

/-- C4: a failing group enumeration is fatal — the run ends in the
command-execution error (modelling the non-zero exit with a diagnostic
carrying the tool's stderr), no report output is produced, and no per-user
lookup is ever consulted: any world agreeing on the group command alone
produces the identical outcome. -/
theorem C4_group_failure_fatal (env : Env) (fmt : String)
    (h : (env "adquery group -m").returncode ≠ 0) :
    mainRun env fmt = .error (.commandRun
      ("Error running command " ++ "adquery group -m" ++ ": " ++
        (env "adquery group -m").stderr)) ∧
    ∀ envB : Env, envB "adquery group -m" = env "adquery group -m" →
      mainRun envB fmt = mainRun env fmt := by
  refine ⟨mainRun_group_err h, fun envB hB => ?_⟩
  have hB' : (envB "adquery group -m").returncode ≠ 0 := by rw [hB]; exact h
  rw [mainRun_group_err hB', mainRun_group_err h, hB]

/-- Witness for C4: a concrete failing-group world dies with the diagnostic,
and a world differing in every per-user answer gives the same outcome. -/
theorem C4_witness :
    mainRun envC4 "table" = .error (.commandRun
      "Error running command adquery group -m: cannot enumerate group") ∧
    mainRun envC4b "table" = mainRun envC4 "table" := by
  refine ⟨?_, ?_⟩
  · exact (C4_group_failure_fatal envC4 "table" (by decide)).1
  · exact (C4_group_failure_fatal envC4 "table" (by decide)).2 envC4b (by decide)

/-- C2: a username whose process-table lookup exits non-zero yields no
record — the failure is swallowed into `none` at the collector boundary,
never surfaced to the caller — and inserting such a user anywhere in the
fan-out leaves the result for the remaining usernames unchanged. -/
theorem C2_ps_failure_dropped (env : Env) (u : String) (us₁ us₂ : List String)
    (h : (env ("ps -hax -o rss,pmem,pcpu -u " ++ u)).returncode ≠ 0) :
    get_user_stats env u = .ok none ∧
    collect_all env (us₁ ++ u :: us₂) = collect_all env (us₁ ++ us₂) := by
  have h1 : get_user_stats env u = .ok none := by
    simp only [get_user_stats, run_command_err h]
  exact ⟨h1, collect_all_middle_none h1 us₁ us₂⟩

/-- Witness for C2: in a world where `alice` has no processes, she is
dropped without an error and `bob`'s gather is exactly what it would be
without her. -/
theorem C2_witness :
    get_user_stats envC2 "alice" = .ok none ∧
    collect_all envC2 ["bob", "alice"] = collect_all envC2 ["bob"] :=
  C2_ps_failure_dropped envC2 "alice" ["bob"] [] (by decide)

/-- C6: when every per-user collection completes (with its record or with
`none`), the fan-out returns exactly the non-`none` results, each in the
position order of its username in the input list. -/
theorem C6_gather_order (env : Env) (usernames : List String)
    (r : String → Option UserStat)
    (h : ∀ u ∈ usernames, get_user_stats env u = Except.ok (r u)) :
    collect_all env usernames = .ok (usernames.filterMap r) := by
  revert h
  induction usernames with
  | nil => intro h; simp [collect_all, gatherStats]
  | cons u us ih =>
    intro h
    rw [collect_all_cons, h u (List.mem_cons_self u us),
      ih (fun v hv => h v (List.mem_cons_of_mem u hv))]
    cases hr : r u <;> simp [List.filterMap_cons, hr]

/-- Witness for C6: in a three-user world with the middle user dropped, the
gather is the two surviving records in input order. -/
theorem C6_witness :
    collect_all envC6 ["alice", "bob", "carol"] =
      .ok [⟨"alice", some "alice@EXAMPLE", 100, mkRat 3 2, 2⟩,
        ⟨"carol", some "carol@EXAMPLE", 30, mkRat 1 4, mkRat 3 4⟩] := by
  rw [C6_gather_order envC6 ["alice", "bob", "carol"] rC6 (by decide)]
  decide

/-- C7: rendering always succeeds — in table format the output is exactly
the header line followed by one tab-separated row per stat whose two
percentage columns end in exactly two decimal digits; the empty list
renders as the header alone in table format and as the empty aggregate in
structured format. -/
theorem C7_render (stats : List UserStat) :
    print_stats stats "table" = some (.table
      ("Username\tUPN\tRSS Total\tPMEM Total\tPCPU Total" ::
        stats.map UserStat.to_table_row)) ∧
    (∀ s ∈ stats, ∃ upnStr : String,
      UserStat.to_table_row s = s.username ++ "\t" ++ upnStr ++ "\t" ++
        toString s.rss_total ++ "\t" ++ formatFixed2 s.pmem_total ++ "\t" ++
        formatFixed2 s.pcpu_total ∧
      endsIn2Decimals (formatFixed2 s.pmem_total) = true ∧
      endsIn2Decimals (formatFixed2 s.pcpu_total) = true) ∧
    print_stats [] "table" = some (.table
      ["Username\tUPN\tRSS Total\tPMEM Total\tPCPU Total"]) ∧
    print_stats ([] : List UserStat) "json" = some (.json (.arr [])) := by
  refine ⟨rfl, fun s _ =>
    ⟨(match s.upn with | some u => if u = "" then "none" else u | none => "none"),
      rfl, formatFixed2_twoDecimals _, formatFixed2_twoDecimals _⟩, rfl, rfl⟩

/-- Witness for C7: a one-record table render, concretely. -/
theorem C7_witness :
    print_stats [demoStat] "table" = some (.table
      ["Username\tUPN\tRSS Total\tPMEM Total\tPCPU Total",
        "alice\tnone\t300\t2.00\t3.00"]) ∧
    endsIn2Decimals (formatFixed2 demoStat.pmem_total) = true := by
  have h := C7_render [demoStat]
  obtain ⟨u, _hrow, hm, _hc⟩ := h.2.1 demoStat (by simp)
  refine ⟨?_, hm⟩
  rw [h.1]
  rfl

/-- C8: structured (json) output is one aggregate array with one entry per
stat; each entry exposes the five fields by name with the numeric totals
carried exactly (no fixed-precision rounding), and an absent identity is
serialized as JSON `null`, which is not the string `"none"`. -/
theorem C8_json_shape (stats : List UserStat) (s : UserStat) :
    print_stats stats "json" = some (.json (.arr (stats.map statDict))) ∧
    (stats.map statDict).length = stats.length ∧
    statDict s = .obj [("username", .str s.username),
      ("upn", match s.upn with | some u => Json.str u | none => Json.null),
      ("rss_total", .int s.rss_total),
      ("pmem_total", .num s.pmem_total),
      ("pcpu_total", .num s.pcpu_total)] ∧
    (s.upn = none →
      statDict s = .obj [("username", .str s.username), ("upn", Json.null),
        ("rss_total", .int s.rss_total), ("pmem_total", .num s.pmem_total),
        ("pcpu_total", .num s.pcpu_total)]) ∧
    Json.null ≠ Json.str "none" := by
  refine ⟨rfl, by simp, rfl, fun h => ?_, fun h => Json.noConfusion h⟩
  simp [statDict, h]

/-- Witness for C8: the aggregate for one record with absent identity,
whose entry carries `null` (not `"none"`) and the exact totals. -/
theorem C8_witness :
    print_stats [demoStat] "json" = some (.json (.arr [statDict demoStat])) ∧
    statDict demoStat = .obj [("username", .str "alice"), ("upn", Json.null),
      ("rss_total", .int 300), ("pmem_total", .num 2), ("pcpu_total", .num 3)] := by
  have h := C8_json_shape [demoStat] demoStat
  exact ⟨h.1, h.2.2.2.1 rfl⟩

/-- C3: for a successful process lookup whose lines all hold three numeric
fields, the record's resident-memory total is the exact integer sum of the
first fields and the two percentage totals are the line-order left folds of
the second and third fields; a successful identity lookup fills the
identity column. -/
theorem C3_totals (env : Env) (u : String) (vals : List (Int × ℚ × ℚ))
    (hps : (env ("ps -hax -o rss,pmem,pcpu -u " ++ u)).returncode = 0)
    (hid : (env ("adquery user -P " ++ u)).returncode = 0)
    (hlines : List.Forall₂ (fun line v => parseLine line = Except.ok v)
      (splitOnNl (pyStrip (env ("ps -hax -o rss,pmem,pcpu -u " ++ u)).stdout))
      vals) :
    get_user_stats env u = .ok (some
      { username := u,
        upn := pyTruthyStrip (some (env ("adquery user -P " ++ u)).stdout),
        rss_total := (vals.map (fun v => v.1)).sum,
        pmem_total := (vals.map (fun v => v.2.1)).foldl (· + ·) 0,
        pcpu_total := (vals.map (fun v => v.2.2)).foldl (· + ·) 0 }) := by
  rw [get_user_stats_parse_ok hps hlines, identityOpt_ok hid]

/-- Witness for C3: the spec's worked example — `ps` output
`"100 1.5 2.0\n200 0.5 1.0"` and identity `"alice@EXAMPLE"` give totals
`300`, `2.0`, `3.0` and the expected table row. -/
theorem C3_witness :
    get_user_stats envC3 "alice" =
      .ok (some ⟨"alice", some "alice@EXAMPLE", 300, 2, 3⟩) ∧
    UserStat.to_table_row ⟨"alice", some "alice@EXAMPLE", 300, 2, 3⟩ =
      "alice\talice@EXAMPLE\t300\t2.00\t3.00" := by
  have h := C3_totals envC3 "alice" [(100, mkRat 3 2, 2), (200, mkRat 1 2, 1)]
    (by decide) (by decide)
    (.cons (by decide) (.cons (by decide) .nil))
  refine ⟨?_, by decide⟩
  rw [h]
  simp only [Except.ok.injEq, Option.some.injEq, UserStat.mk.injEq]
  refine ⟨by decide, by decide, by decide, ?_, ?_⟩ <;>
    simp [Rat.mkRat_eq_div] <;> norm_num

/-- C5: a failing identity lookup with a successful, well-formed process
lookup still produces the record — the identity failure is swallowed, never
propagated — with the identity absent, and the table row renders the
identity column as the literal string `none`. -/
theorem C5_identity_absent (env : Env) (u : String) (vals : List (Int × ℚ × ℚ))
    (hid : (env ("adquery user -P " ++ u)).returncode ≠ 0)
    (hps : (env ("ps -hax -o rss,pmem,pcpu -u " ++ u)).returncode = 0)
    (hlines : List.Forall₂ (fun line v => parseLine line = Except.ok v)
      (splitOnNl (pyStrip (env ("ps -hax -o rss,pmem,pcpu -u " ++ u)).stdout))
      vals) :
    get_user_stats env u = .ok (some
      { username := u, upn := none,
        rss_total := (vals.map (fun v => v.1)).sum,
        pmem_total := (vals.map (fun v => v.2.1)).foldl (· + ·) 0,
        pcpu_total := (vals.map (fun v => v.2.2)).foldl (· + ·) 0 }) ∧
    UserStat.to_table_row
      { username := u, upn := none,
        rss_total := (vals.map (fun v => v.1)).sum,
        pmem_total := (vals.map (fun v => v.2.1)).foldl (· + ·) 0,
        pcpu_total := (vals.map (fun v => v.2.2)).foldl (· + ·) 0 } =
      u ++ "\t" ++ "none" ++ "\t" ++
        toString ((vals.map (fun v => v.1)).sum) ++ "\t" ++
        formatFixed2 ((vals.map (fun v => v.2.1)).foldl (· + ·) 0) ++ "\t" ++
        formatFixed2 ((vals.map (fun v => v.2.2)).foldl (· + ·) 0) := by
  refine ⟨?_, rfl⟩
  rw [get_user_stats_parse_ok hps hlines, identityOpt_err hid]
  rfl

/-- Witness for C5: `carol` has no directory identity but one process line;
her record appears with `upn = none` and her row prints `none`. -/
theorem C5_witness :
    get_user_stats envC5 "carol" =
      .ok (some ⟨"carol", none, 10, mkRat 1 2, mkRat 1 4⟩) ∧
    UserStat.to_table_row ⟨"carol", none, 10, mkRat 1 2, mkRat 1 4⟩ =
      "carol\tnone\t10\t0.50\t0.25" := by
  have h := C5_identity_absent envC5 "carol" [(10, mkRat 1 2, mkRat 1 4)]
    (by decide) (by decide) (.cons (by decide) .nil)
  refine ⟨?_, by decide⟩
  rw [h.1]
  simp only [Except.ok.injEq, Option.some.injEq, UserStat.mk.injEq]
  refine ⟨by decide, by decide, by decide, ?_, ?_⟩ <;>
    simp [Rat.mkRat_eq_div]

/-- Counterexample to C1 as stated: with the malformed line `"100 abc 2.0"`
for `alice` and well-formed output for sibling `bob`, `alice`'s collection
does not fail silently — it raises the uncaught conversion `ValueError` —
and the whole run aborts with that error, so `bob` produces no record
either. -/
theorem C1_counterexample :
    get_user_stats envC1 "alice" =
      .error (.valueError "could not convert string to float: abc") ∧
    get_user_stats envC1 "bob" =
      .ok (some ⟨"bob", some "bob@EXAMPLE", 50, mkRat 1 2, mkRat 3 2⟩) ∧
    collect_all envC1 ["alice", "bob"] =
      .error (.valueError "could not convert string to float: abc") ∧
    mainRun envC1 "table" =
      .error (.valueError "could not convert string to float: abc") :=
  ⟨by decide, by decide, by decide, by rfl⟩

/-- C1 (amended): when the process lookup succeeds but some output line is
malformed — wrong token count or a failed numeric conversion — the
`ValueError` is not caught by the collector: that user's collection raises
rather than silently yielding no record, and the whole gather, sibling
users included, aborts with the error. -/
theorem C1_malformed_line_escapes (env : Env) (u : String) (line : String)
    (us₁ us₂ : List String)
    (hps : (env ("ps -hax -o rss,pmem,pcpu -u " ++ u)).returncode = 0)
    (hmem : line ∈
      splitOnNl (pyStrip (env ("ps -hax -o rss,pmem,pcpu -u " ++ u)).stdout))
    (hbad : (parseLine line).isErr = true) :
    (get_user_stats env u).isErr = true ∧
    (collect_all env (us₁ ++ u :: us₂)).isErr = true := by
  have h1 : (get_user_stats env u).isErr = true := by
    have hs := statsLoop_err hmem hbad (0, 0, 0)
    simp only [get_user_stats, run_command_ok hps]
    cases hsl : statsLoop
        (splitOnNl (pyStrip (env ("ps -hax -o rss,pmem,pcpu -u " ++ u)).stdout))
        (0, 0, 0) with
    | error e => simp [Except.isErr]
    | ok t => rw [hsl] at hs; simp [Except.isErr] at hs
  exact ⟨h1, collect_all_err_mem h1 us₁ us₂⟩

/-- Witness for the amended C1, at the concrete malformed world. -/
theorem C1_witness :
    (get_user_stats envC1 "alice").isErr = true ∧
    (collect_all envC1 ["alice", "bob"]).isErr = true :=
  C1_malformed_line_escapes envC1 "alice" "100 abc 2.0" [] ["bob"]
    (by decide) (by decide) (by decide)

/-- C10: a successful process lookup with empty (or whitespace-only) stdout
is neither a zero-total record nor a silent drop — unpacking the single
empty line raises a `ValueError` that is not the caught command-execution
error, escapes the collector, and aborts any run whose fan-out includes the
user. -/
theorem C10_empty_output_aborts (env : Env) (u : String)
    (us₁ us₂ : List String) (fmt : String)
    (hps : (env ("ps -hax -o rss,pmem,pcpu -u " ++ u)).returncode = 0)
    (hempty : pyStrip (env ("ps -hax -o rss,pmem,pcpu -u " ++ u)).stdout = "") :
    get_user_stats env u =
      .error (.valueError "cannot unpack 0 values into 3") ∧
    (collect_all env (us₁ ++ u :: us₂)).isErr = true ∧
    ((env "adquery group -m").returncode = 0 →
      (splitOnNl (pyStrip (env "adquery group -m").stdout)).map pyStrip =
        us₁ ++ u :: us₂ →
      (mainRun env fmt).isErr = true) := by
  have h1 : get_user_stats env u =
      .error (.valueError "cannot unpack 0 values into 3") := by
    simp only [get_user_stats, run_command_ok hps, hempty]
    rfl
  have h2 : (collect_all env (us₁ ++ u :: us₂)).isErr = true :=
    collect_all_err_mem (by rw [h1]; rfl) us₁ us₂
  refine ⟨h1, h2, fun hg hsplit => ?_⟩
  simp only [mainRun, run_command_ok hg, hsplit]
  cases hc : collect_all env (us₁ ++ u :: us₂) with
  | error e => simp [Except.isErr]
  | ok stats => rw [hc] at h2; simp [Except.isErr] at h2

/-- Witness for C10: the group member `dave` has a successful `ps` call with
empty stdout; his collection raises and the whole run aborts. -/
theorem C10_witness :
    get_user_stats envC10 "dave" =
      .error (.valueError "cannot unpack 0 values into 3") ∧
    (mainRun envC10 "table").isErr = true := by
  have h := C10_empty_output_aborts envC10 "dave" [] [] "table"
    (by decide) (by decide)
  exact ⟨h.1, h.2.2 (by decide) (by decide)⟩
